import Mathlib

/-
Verification of the Adaptive-Screen-Dimmer-Windows repository.

Shallow embedding of the brightness-to-opacity controller, the opacity
smoother and the monitoring loop, translated from:
  src/HelperScripts/dimmer.py   (class AdaptiveDimmer)
  src/HelperScripts/overlay.py  (class OverlayManager)
  src/adaptive_dimmer.py        (single-monitor prototype)
Real numbers of the Python code are modelled as rationals.
-/

namespace AdaptiveScreenDimmer

namespace Overlay

/-- Python's int() applied to a real number: truncation toward zero. -/
def pyInt (q : ℚ) : ℤ :=
  if 0 ≤ q then ⌊q⌋ else ⌈q⌉

/-- The preprocessing line of OverlayManager.set_overlay_opacity
(overlay.py line 150): opacity = max(0, min(255, int(opacity))). -/
def pyClampTrunc (q : ℚ) : ℚ :=
  max 0 (min 255 ((pyInt q : ℤ) : ℚ))

/-- Pure core of OverlayManager.set_overlay_opacity (overlay.py lines
147-164): the new value stored into current_opacity, as a function of the
previous current value, the requested opacity and the force_immediate flag. -/
def set_overlay_opacity_step (current opacity : ℚ) (force_immediate : Bool) : ℚ :=
  let op := pyClampTrunc opacity
  if force_immediate then op
  else
    let diff := op - current
    if 1 < |diff| then current + diff * (15 / 100) else op

/-- State of OverlayManager (overlay.py lines 15-20): per-monitor window
handles and opacity values.  The Python dictionaries are read with a
default of 0 (dict.get(monitor_id, 0)), so they are modelled as total
functions. -/
structure OverlayManager where
  hwnds : ℕ → Option ℕ
  current_opacity : ℕ → ℚ
  target_opacity : ℕ → ℚ

/-- OverlayManager.set_overlay_opacity (overlay.py lines 147-164) as a
state transformer: updates current_opacity at monitor_id through
set_overlay_opacity_step. -/
def OverlayManager.set_overlay_opacity (st : OverlayManager) (monitor_id : ℕ)
    (opacity : ℚ) (force_immediate : Bool) : OverlayManager :=
  { st with current_opacity := fun k =>
      if k = monitor_id then
        set_overlay_opacity_step (st.current_opacity monitor_id) opacity force_immediate
      else st.current_opacity k }

/-- Success path of OverlayManager.create_overlay (overlay.py lines
113-117): stores the new window handle and resets both opacity entries of
the monitor to 0. -/
def OverlayManager.create_overlay (st : OverlayManager) (monitor_id : ℕ)
    (hwnd : ℕ) : OverlayManager :=
  { hwnds := fun k => if k = monitor_id then some hwnd else st.hwnds k,
    current_opacity := fun k => if k = monitor_id then 0 else st.current_opacity k,
    target_opacity := fun k => if k = monitor_id then 0 else st.target_opacity k }

end Overlay

namespace Dimmer

/-- Modelled from the spec: THRESHOLD_START is imported by
HelperScripts/dimmer.py from HelperScripts/config.py, which is not among
the sources; the spec gives the low threshold as 40 (matching the constant
in src/adaptive_dimmer.py). -/
def THRESHOLD_START : ℚ := 40

/-- Modelled from the spec: THRESHOLD_MAX is imported by
HelperScripts/dimmer.py from HelperScripts/config.py, which is not among
the sources; the spec gives the high threshold as 130 (matching the
constant in src/adaptive_dimmer.py). -/
def THRESHOLD_MAX : ℚ := 130

/-- Modelled from the spec: MAX_OPACITY is imported by
HelperScripts/dimmer.py from HelperScripts/config.py, which is not among
the sources; the spec gives the maximal opacity as 200 (matching the
constant in src/adaptive_dimmer.py). -/
def MAX_OPACITY : ℚ := 200

/-- Body of AdaptiveDimmer.calculate_target_opacity
(HelperScripts/dimmer.py lines 61-78), parameterized by the three
configuration constants it reads. -/
def calculate_target_opacity_with (tStart tMax maxOp raw_estimate strength : ℚ) : ℚ :=
  if tMax < raw_estimate then maxOp * strength
  else if tStart < raw_estimate then
    (raw_estimate - tStart) / (tMax - tStart) * maxOp * strength
  else 0

/-- AdaptiveDimmer.calculate_target_opacity (HelperScripts/dimmer.py lines
61-78) with the configuration constants of this repository. -/
def calculate_target_opacity (raw_estimate strength : ℚ) : ℚ :=
  calculate_target_opacity_with THRESHOLD_START THRESHOLD_MAX MAX_OPACITY
    raw_estimate strength

/-- Strength computation of AdaptiveDimmer.monitor_loop
(HelperScripts/dimmer.py line 130): the GUI slider value, divided by 100
and clamped to the unit interval; 1 when there is no GUI. -/
def monitor_strength (gui : Option ℚ) : ℚ :=
  match gui with
  | some g => max 0 (min 1 (g / 100))
  | none => 1

/-- Per-monitor body of AdaptiveDimmer.monitor_loop
(HelperScripts/dimmer.py lines 110-153).  A monitor without a valid window
handle is skipped; the brightness capture may fail, in which case the
exception is caught (lines 151-153) and the monitor is skipped for this
tick; on success the measurement is clamped to an interval of 0 to 255, a new
target is stored and the overlay opacity advances one smoothing step. -/
def monitor_body (gui : Option ℚ) (capture : ℕ → Except String ℚ)
    (st : Overlay.OverlayManager) (monitor_id : ℕ) : Overlay.OverlayManager :=
  match st.hwnds monitor_id with
  | none => st
  | some _ =>
    match capture monitor_id with
    | Except.error _ => st
    | Except.ok measured =>
      let raw_estimate := max 0 (min 255 measured)
      let strength := monitor_strength gui
      let new_target := calculate_target_opacity raw_estimate strength
      let st1 : Overlay.OverlayManager :=
        { st with target_opacity := fun k =>
            if k = monitor_id then new_target else st.target_opacity k }
      st1.set_overlay_opacity monitor_id new_target false

/-- One tick of AdaptiveDimmer.monitor_loop (HelperScripts/dimmer.py lines
110-153): the per-monitor body folded over the copied list of active
monitors. -/
def monitor_tick (gui : Option ℚ) (capture : ℕ → Except String ℚ)
    (st : Overlay.OverlayManager) (active_monitors : List ℕ) : Overlay.OverlayManager :=
  active_monitors.foldl (monitor_body gui capture) st

end Dimmer

namespace Single

/-- THRESHOLD_START of src/adaptive_dimmer.py line 12. -/
def THRESHOLD_START : ℚ := 40

/-- THRESHOLD_MAX of src/adaptive_dimmer.py line 13. -/
def THRESHOLD_MAX : ℚ := 130

/-- MAX_OPACITY of src/adaptive_dimmer.py line 14. -/
def MAX_OPACITY : ℚ := 200

/-- State of the single-monitor prototype class AdaptiveDimmer
(src/adaptive_dimmer.py lines 17-22). -/
structure AdaptiveDimmer where
  hwnd : Option ℕ
  running : Bool
  current_opacity : ℚ
  target_opacity : ℚ

/-- Constructor of the single-monitor prototype
(src/adaptive_dimmer.py lines 18-22).  It performs no configuration
validation of any kind: it unconditionally produces a running state. -/
def AdaptiveDimmer.init : AdaptiveDimmer :=
  { hwnd := none, running := true, current_opacity := 0, target_opacity := 0 }

/-- Inline target-opacity computation of the single-monitor prototype's
monitor_loop (src/adaptive_dimmer.py lines 171-181). -/
def monitor_target (brightness : ℚ) : ℚ :=
  if THRESHOLD_MAX < brightness then MAX_OPACITY
  else if THRESHOLD_START < brightness then
    (brightness - THRESHOLD_START) / (THRESHOLD_MAX - THRESHOLD_START) * MAX_OPACITY
  else 0

/-- Pure core of the single-monitor prototype's set_overlay_opacity
(src/adaptive_dimmer.py lines 37-46): truncate and clamp the request, then
smooth with factor 0.3 or snap. -/
def set_overlay_opacity (current opacity : ℚ) : ℚ :=
  let op := max 0 (min 255 ((Overlay.pyInt opacity : ℤ) : ℚ))
  if 1 < |current - op| then current + (op - current) * (3 / 10) else op

end Single

namespace Overlay

lemma pyInt_intCast (n : ℤ) : pyInt ((n : ℤ) : ℚ) = n := by
  unfold pyInt
  split_ifs with h
  · exact Int.floor_intCast n
  · exact Int.ceil_intCast n

lemma pyClampTrunc_nonneg (q : ℚ) : 0 ≤ pyClampTrunc q :=
  le_max_left 0 _

lemma pyClampTrunc_le (q : ℚ) : pyClampTrunc q ≤ 255 := by
  unfold pyClampTrunc
  exact max_le (by norm_num) (min_le_left _ _)

lemma pyClampTrunc_pyInt (q : ℚ) : pyClampTrunc ((pyInt q : ℤ) : ℚ) = pyClampTrunc q := by
  unfold pyClampTrunc
  rw [pyInt_intCast]

lemma pyClampTrunc_int (t : ℤ) (h0 : 0 ≤ t) (h1 : t ≤ 255) :
    pyClampTrunc ((t : ℤ) : ℚ) = ((t : ℤ) : ℚ) := by
  unfold pyClampTrunc
  rw [pyInt_intCast]
  rw [min_eq_right (by exact_mod_cast h1), max_eq_right (by exact_mod_cast h0)]

lemma set_step_force (c t : ℚ) :
    set_overlay_opacity_step c t true = pyClampTrunc t := rfl

lemma set_step_far (c t : ℚ) (h : 1 < |pyClampTrunc t - c|) :
    set_overlay_opacity_step c t false = c + (pyClampTrunc t - c) * (15 / 100) := by
  unfold set_overlay_opacity_step
  simp only [if_pos h, Bool.false_eq_true, if_false]

lemma set_step_snap (c t : ℚ) (h : |pyClampTrunc t - c| ≤ 1) :
    set_overlay_opacity_step c t false = pyClampTrunc t := by
  unfold set_overlay_opacity_step
  simp only [Bool.false_eq_true, if_false]
  rw [if_neg (not_lt.mpr h)]

lemma pyClampTrunc_comm (q : ℚ) :
    pyClampTrunc q = ((pyInt (max 0 (min 255 q)) : ℤ) : ℚ) := by
  rcases lt_or_le q 0 with h | h
  · have hint : pyInt q = ⌈q⌉ := by unfold pyInt; rw [if_neg (not_le.mpr h)]
    have hc : ⌈q⌉ ≤ 0 := Int.ceil_le.mpr (by exact_mod_cast h.le)
    have hcq : ((⌈q⌉ : ℤ) : ℚ) ≤ 0 := by exact_mod_cast hc
    have hL : pyClampTrunc q = 0 := by
      unfold pyClampTrunc
      rw [hint, min_eq_right (by linarith), max_eq_left hcq]
    have hmin : min (255 : ℚ) q = q := min_eq_right (by linarith)
    have hmax : max (0 : ℚ) q = 0 := max_eq_left h.le
    rw [hL, hmin, hmax]
    have h0 : (0 : ℚ) = ((0 : ℤ) : ℚ) := by norm_num
    rw [h0, pyInt_intCast]
  · have hint : pyInt q = ⌊q⌋ := by unfold pyInt; rw [if_pos h]
    rcases le_or_lt q 255 with h255 | h255
    · have hmin : min (255 : ℚ) q = q := min_eq_right h255
      have hmax : max (0 : ℚ) q = q := max_eq_right h
      have hf0 : (0 : ℤ) ≤ ⌊q⌋ := Int.floor_nonneg.mpr h
      have hf255 : ((⌊q⌋ : ℤ) : ℚ) ≤ 255 := le_trans (Int.floor_le q) h255
      unfold pyClampTrunc
      rw [hmin, hmax, hint,
        min_eq_right hf255, max_eq_right (by exact_mod_cast hf0)]
    · have hmin : min (255 : ℚ) q = 255 := min_eq_left h255.le
      have hmax : max (0 : ℚ) (255 : ℚ) = 255 := max_eq_right (by norm_num)
      have hf : (255 : ℤ) ≤ ⌊q⌋ := Int.le_floor.mpr (by push_cast; linarith)
      have hfq : (255 : ℚ) ≤ ((⌊q⌋ : ℤ) : ℚ) := by exact_mod_cast hf
      unfold pyClampTrunc
      rw [hmin, hmax, hint, min_eq_left hfq, max_eq_right (by norm_num)]
      have h255c : (255 : ℚ) = ((255 : ℤ) : ℚ) := by norm_num
      rw [h255c, pyInt_intCast]

lemma pyClampTrunc_hundred : pyClampTrunc 100 = 100 := by
  rw [show (100 : ℚ) = ((100 : ℤ) : ℚ) by norm_num]
  exact pyClampTrunc_int 100 (by norm_num) (by norm_num)

lemma pyInt_nine_tenths : pyInt (9 / 10) = 0 := by
  unfold pyInt
  rw [if_pos (by norm_num), Int.floor_eq_zero_iff]
  constructor <;> norm_num

lemma pyClampTrunc_nine_tenths : pyClampTrunc (9 / 10) = 0 := by
  unfold pyClampTrunc
  rw [pyInt_nine_tenths]
  norm_num

lemma pyClampTrunc_half : pyClampTrunc (1 / 2) = 0 := by
  unfold pyClampTrunc pyInt
  rw [if_pos (by norm_num), Int.floor_eq_zero_iff.mpr (by constructor <;> norm_num)]
  norm_num

lemma set_step_mem (c t : ℚ) (f : Bool) (h0 : 0 ≤ c) (h1 : c ≤ 255) :
    0 ≤ set_overlay_opacity_step c t f ∧ set_overlay_opacity_step c t f ≤ 255 := by
  have hop0 := pyClampTrunc_nonneg t
  have hop1 := pyClampTrunc_le t
  cases f with
  | true => rw [set_step_force]; exact ⟨hop0, hop1⟩
  | false =>
    rcases le_or_lt |pyClampTrunc t - c| 1 with h | h
    · rw [set_step_snap c t h]; exact ⟨hop0, hop1⟩
    · rw [set_step_far c t h]; constructor <;> linarith

lemma set_step_dist (c t : ℚ) :
    |pyClampTrunc t - set_overlay_opacity_step c t false| ≤
      17 / 20 * |pyClampTrunc t - c| := by
  rcases le_or_lt |pyClampTrunc t - c| 1 with h | h
  · rw [set_step_snap c t h, sub_self, abs_zero]
    positivity
  · rw [set_step_far c t h,
      show pyClampTrunc t - (c + (pyClampTrunc t - c) * (15 / 100)) =
        (pyClampTrunc t - c) * (17 / 20) by ring,
      abs_mul, abs_of_nonneg (by norm_num : (0 : ℚ) ≤ 17 / 20), mul_comm]

lemma iterate_step_dist (t c : ℚ) (n : ℕ) :
    |pyClampTrunc t - (fun x => set_overlay_opacity_step x t false)^[n] c| ≤
      (17 / 20) ^ n * |pyClampTrunc t - c| := by
  induction n with
  | zero => simp
  | succ n ih =>
    rw [Function.iterate_succ_apply']
    calc |pyClampTrunc t -
          set_overlay_opacity_step ((fun x => set_overlay_opacity_step x t false)^[n] c) t false| ≤
        17 / 20 * |pyClampTrunc t - (fun x => set_overlay_opacity_step x t false)^[n] c| :=
          set_step_dist _ t
      _ ≤ 17 / 20 * ((17 / 20) ^ n * |pyClampTrunc t - c|) :=
          mul_le_mul_of_nonneg_left ih (by norm_num)
      _ = (17 / 20) ^ (n + 1) * |pyClampTrunc t - c| := by ring

end Overlay

namespace Dimmer

lemma monitor_strength_mem (g : Option ℚ) :
    0 ≤ monitor_strength g ∧ monitor_strength g ≤ 1 := by
  cases g with
  | none => unfold monitor_strength; norm_num
  | some v =>
      unfold monitor_strength
      exact ⟨le_max_left 0 _, max_le (by norm_num) (min_le_left _ _)⟩

lemma calc_range (raw s : ℚ) (h0 : 0 ≤ s) (h1 : s ≤ 1) :
    0 ≤ calculate_target_opacity raw s ∧ calculate_target_opacity raw s ≤ 255 := by
  unfold calculate_target_opacity calculate_target_opacity_with
    THRESHOLD_START THRESHOLD_MAX MAX_OPACITY
  rw [show (130 : ℚ) - 40 = 90 by norm_num]
  split_ifs with ha hb
  · constructor <;> nlinarith
  · have hr0 : (0 : ℚ) ≤ (raw - 40) / 90 := div_nonneg (by linarith) (by norm_num)
    have hr1 : (raw - 40) / 90 ≤ 1 := by
      rw [div_le_one (by norm_num : (0 : ℚ) < 90)]
      linarith
    constructor
    · exact mul_nonneg (mul_nonneg hr0 (by norm_num)) h0
    · nlinarith [mul_nonneg (sub_nonneg.mpr hr1) (sub_nonneg.mpr h1),
        mul_nonneg hr0 h0, mul_nonneg (sub_nonneg.mpr hr1) h0,
        mul_nonneg hr0 (sub_nonneg.mpr h1)]
  · norm_num

lemma monitor_body_no_hwnd (g : Option ℚ) (cap : ℕ → Except String ℚ)
    (st : Overlay.OverlayManager) (m : ℕ) (hw : st.hwnds m = none) :
    monitor_body g cap st m = st := by
  unfold monitor_body
  rw [hw]

lemma monitor_body_error (g : Option ℚ) (cap : ℕ → Except String ℚ)
    (st : Overlay.OverlayManager) (m : ℕ) (e : String)
    (hc : cap m = Except.error e) :
    monitor_body g cap st m = st := by
  unfold monitor_body
  cases hw : st.hwnds m with
  | none => rfl
  | some h => rw [hc]

lemma monitor_body_ok (g : Option ℚ) (cap : ℕ → Except String ℚ)
    (st : Overlay.OverlayManager) (m : ℕ) (h : ℕ) (v : ℚ)
    (hw : st.hwnds m = some h) (hc : cap m = Except.ok v) :
    monitor_body g cap st m =
      { hwnds := st.hwnds,
        current_opacity := fun k =>
          if k = m then
            Overlay.set_overlay_opacity_step (st.current_opacity m)
              (calculate_target_opacity (max 0 (min 255 v)) (monitor_strength g)) false
          else st.current_opacity k,
        target_opacity := fun k =>
          if k = m then
            calculate_target_opacity (max 0 (min 255 v)) (monitor_strength g)
          else st.target_opacity k } := by
  unfold monitor_body
  rw [hw, hc]
  rfl

lemma monitor_body_hwnds (g : Option ℚ) (cap : ℕ → Except String ℚ)
    (st : Overlay.OverlayManager) (m : ℕ) :
    (monitor_body g cap st m).hwnds = st.hwnds := by
  cases hw : st.hwnds m with
  | none => rw [monitor_body_no_hwnd g cap st m hw]
  | some h =>
    cases hc : cap m with
    | error e => rw [monitor_body_error g cap st m e hc]
    | ok v => rw [monitor_body_ok g cap st m h v hw hc]

lemma monitor_body_frame (g : Option ℚ) (cap : ℕ → Except String ℚ)
    (st : Overlay.OverlayManager) (m k : ℕ) (hk : k ≠ m) :
    (monitor_body g cap st m).current_opacity k = st.current_opacity k ∧
    (monitor_body g cap st m).target_opacity k = st.target_opacity k := by
  cases hw : st.hwnds m with
  | none => rw [monitor_body_no_hwnd g cap st m hw]; exact ⟨rfl, rfl⟩
  | some h =>
    cases hc : cap m with
    | error e => rw [monitor_body_error g cap st m e hc]; exact ⟨rfl, rfl⟩
    | ok v =>
      rw [monitor_body_ok g cap st m h v hw hc]
      exact ⟨if_neg hk, if_neg hk⟩

lemma monitor_tick_not_mem (g : Option ℚ) (cap : ℕ → Except String ℚ)
    (ms : List ℕ) :
    ∀ (st : Overlay.OverlayManager) (m : ℕ), m ∉ ms →
    (monitor_tick g cap st ms).current_opacity m = st.current_opacity m ∧
    (monitor_tick g cap st ms).target_opacity m = st.target_opacity m := by
  induction ms with
  | nil => intro st m _; exact ⟨rfl, rfl⟩
  | cons a tl ih =>
    intro st m hm
    rw [List.mem_cons] at hm
    push_neg at hm
    obtain ⟨hma, hmtl⟩ := hm
    have hrec := ih (monitor_body g cap st a) m hmtl
    have hfr := monitor_body_frame g cap st a m hma
    unfold monitor_tick at hrec ⊢
    rw [List.foldl_cons]
    exact ⟨hrec.1.trans hfr.1, hrec.2.trans hfr.2⟩

lemma monitor_tick_error (g : Option ℚ) (cap : ℕ → Except String ℚ)
    (ms : List ℕ) :
    ∀ (st : Overlay.OverlayManager) (m : ℕ) (e : String), ms.Nodup → m ∈ ms →
    cap m = Except.error e →
    (monitor_tick g cap st ms).current_opacity m = st.current_opacity m ∧
    (monitor_tick g cap st ms).target_opacity m = st.target_opacity m := by
  induction ms with
  | nil => intro st m e _ hm; exact absurd hm (List.not_mem_nil m)
  | cons a tl ih =>
    intro st m e hnd hm hc
    rw [List.nodup_cons] at hnd
    obtain ⟨hatl, hndtl⟩ := hnd
    unfold monitor_tick
    rw [List.foldl_cons]
    rcases List.mem_cons.mp hm with rfl | hmtl
    · rw [monitor_body_error g cap st m e hc]
      exact monitor_tick_not_mem g cap tl st m hatl
    · have hma : m ≠ a := fun hh => hatl (hh ▸ hmtl)
      have hfr := monitor_body_frame g cap st a m hma
      have hrec := ih (monitor_body g cap st a) m e hndtl hmtl hc
      unfold monitor_tick at hrec
      exact ⟨hrec.1.trans hfr.1, hrec.2.trans hfr.2⟩

lemma monitor_tick_ok (g : Option ℚ) (cap : ℕ → Except String ℚ)
    (ms : List ℕ) :
    ∀ (st : Overlay.OverlayManager) (m : ℕ) (h : ℕ) (v : ℚ), ms.Nodup → m ∈ ms →
    st.hwnds m = some h → cap m = Except.ok v →
    (monitor_tick g cap st ms).target_opacity m =
      calculate_target_opacity (max 0 (min 255 v)) (monitor_strength g) ∧
    (monitor_tick g cap st ms).current_opacity m =
      Overlay.set_overlay_opacity_step (st.current_opacity m)
        (calculate_target_opacity (max 0 (min 255 v)) (monitor_strength g)) false := by
  induction ms with
  | nil => intro st m h v _ hm; exact absurd hm (List.not_mem_nil m)
  | cons a tl ih =>
    intro st m h v hnd hm hw hc
    rw [List.nodup_cons] at hnd
    obtain ⟨hatl, hndtl⟩ := hnd
    unfold monitor_tick
    rw [List.foldl_cons]
    rcases List.mem_cons.mp hm with rfl | hmtl
    · have hrest := monitor_tick_not_mem g cap tl (monitor_body g cap st m) m hatl
      unfold monitor_tick at hrest
      refine ⟨hrest.2.trans ?_, hrest.1.trans ?_⟩
      · rw [monitor_body_ok g cap st m h v hw hc]
        exact if_pos rfl
      · rw [monitor_body_ok g cap st m h v hw hc]
        exact if_pos rfl
    · have hma : m ≠ a := fun hh => hatl (hh ▸ hmtl)
      have hfr := monitor_body_frame g cap st a m hma
      have hw1 : (monitor_body g cap st a).hwnds m = some h := by
        rw [monitor_body_hwnds g cap st a]; exact hw
      have hrec := ih (monitor_body g cap st a) m h v hndtl hmtl hw1 hc
      unfold monitor_tick at hrec
      rw [hfr.1] at hrec
      exact hrec

lemma monitor_body_inv (g : Option ℚ) (cap : ℕ → Except String ℚ)
    (st : Overlay.OverlayManager) (m : ℕ)
    (h : ∀ k, (0 ≤ st.current_opacity k ∧ st.current_opacity k ≤ 255) ∧
      (0 ≤ st.target_opacity k ∧ st.target_opacity k ≤ 255)) :
    ∀ k, (0 ≤ (monitor_body g cap st m).current_opacity k ∧
        (monitor_body g cap st m).current_opacity k ≤ 255) ∧
      (0 ≤ (monitor_body g cap st m).target_opacity k ∧
        (monitor_body g cap st m).target_opacity k ≤ 255) := by
  cases hw : st.hwnds m with
  | none => rw [monitor_body_no_hwnd g cap st m hw]; exact h
  | some hd =>
    cases hc : cap m with
    | error e => rw [monitor_body_error g cap st m e hc]; exact h
    | ok v =>
      rw [monitor_body_ok g cap st m hd v hw hc]
      intro k
      by_cases hk : k = m
      · obtain ⟨hs0, hs1⟩ := monitor_strength_mem g
        have hcr := calc_range (max 0 (min 255 v)) (monitor_strength g) hs0 hs1
        have hstep := Overlay.set_step_mem (st.current_opacity m)
          (calculate_target_opacity (max 0 (min 255 v)) (monitor_strength g)) false
          (h m).1.1 (h m).1.2
        simp only [if_pos hk]
        exact ⟨hstep, hcr⟩
      · simp only [if_neg hk]
        exact h k

lemma monitor_tick_inv (g : Option ℚ) (cap : ℕ → Except String ℚ)
    (ms : List ℕ) :
    ∀ st : Overlay.OverlayManager,
    (∀ k, (0 ≤ st.current_opacity k ∧ st.current_opacity k ≤ 255) ∧
      (0 ≤ st.target_opacity k ∧ st.target_opacity k ≤ 255)) →
    ∀ k, (0 ≤ (monitor_tick g cap st ms).current_opacity k ∧
        (monitor_tick g cap st ms).current_opacity k ≤ 255) ∧
      (0 ≤ (monitor_tick g cap st ms).target_opacity k ∧
        (monitor_tick g cap st ms).target_opacity k ≤ 255) := by
  induction ms with
  | nil => intro st h; exact h
  | cons a tl ih =>
    intro st h
    unfold monitor_tick
    rw [List.foldl_cons]
    exact ih (monitor_body g cap st a) (monitor_body_inv g cap st a h)

end Dimmer

/-- C1: for the fixed thresholds THRESHOLD_START = 40 < THRESHOLD_MAX = 130,
calculate_target_opacity is piecewise linear in brightness: 0 at or below the
low threshold, the linear interpolation ratio times MAX_OPACITY times
strength strictly between the thresholds, and MAX_OPACITY times strength at
or above the high threshold; at brightness 85 with strength 1 it is
exactly 100. -/
theorem C1_target_piecewise (b s : ℚ) :
    (b ≤ Dimmer.THRESHOLD_START → Dimmer.calculate_target_opacity b s = 0) ∧
    (Dimmer.THRESHOLD_START < b → b < Dimmer.THRESHOLD_MAX →
      Dimmer.calculate_target_opacity b s =
        (b - Dimmer.THRESHOLD_START) /
            (Dimmer.THRESHOLD_MAX - Dimmer.THRESHOLD_START) *
          Dimmer.MAX_OPACITY * s) ∧
    (Dimmer.THRESHOLD_MAX ≤ b →
      Dimmer.calculate_target_opacity b s = Dimmer.MAX_OPACITY * s) ∧
    Dimmer.calculate_target_opacity 85 1 = 100 := by
  unfold Dimmer.calculate_target_opacity Dimmer.calculate_target_opacity_with
    Dimmer.THRESHOLD_START Dimmer.THRESHOLD_MAX Dimmer.MAX_OPACITY
  refine ⟨?_, ?_, ?_, by norm_num⟩
  · intro hb
    rw [if_neg (by linarith), if_neg (by linarith)]
  · intro h1 h2
    rw [if_neg (by linarith), if_pos h1]
  · intro hb
    rcases eq_or_lt_of_le hb with h | h
    · rw [if_neg (by linarith), if_pos (by linarith)]
      rw [← h]
      norm_num
    · rw [if_pos h]

/-- Witness for C1: brightness 85 lies strictly between the thresholds and
the theorem yields the interpolation formula there. -/
theorem C1_target_piecewise_witness :
    Dimmer.THRESHOLD_START < 85 ∧ (85 : ℚ) < Dimmer.THRESHOLD_MAX ∧
      Dimmer.calculate_target_opacity 85 1 =
        (85 - Dimmer.THRESHOLD_START) /
            (Dimmer.THRESHOLD_MAX - Dimmer.THRESHOLD_START) *
          Dimmer.MAX_OPACITY * 1 :=
  ⟨by norm_num [Dimmer.THRESHOLD_START], by norm_num [Dimmer.THRESHOLD_MAX],
    (C1_target_piecewise 85 1).2.1 (by norm_num [Dimmer.THRESHOLD_START])
      (by norm_num [Dimmer.THRESHOLD_MAX])⟩

/-- C9: the single-monitor prototype's inline threshold computation agrees
with the multi-monitor calculate_target_opacity at strength 1, both using
the constants 40, 130 and 200. -/
theorem C9_prototypes_agree (b : ℚ) :
    Single.monitor_target b = Dimmer.calculate_target_opacity b 1 := by
  unfold Single.monitor_target Dimmer.calculate_target_opacity
    Dimmer.calculate_target_opacity_with
  unfold Single.THRESHOLD_START Single.THRESHOLD_MAX Single.MAX_OPACITY
    Dimmer.THRESHOLD_START Dimmer.THRESHOLD_MAX Dimmer.MAX_OPACITY
  split_ifs <;> ring

/-- Counterexample to C3: calculate_target_opacity does not clamp its
strength argument internally; at brightness 200 and strength 2 it returns
400, while the claimed clamped call returns 200. -/
theorem C3_internal_clamp_counterexample :
    Dimmer.calculate_target_opacity 200 2 ≠
      Dimmer.calculate_target_opacity (max 0 (min 255 200)) (max 0 (min 1 2)) := by
  rw [min_eq_right (by norm_num : (200 : ℚ) ≤ 255),
    max_eq_right (by norm_num : (0 : ℚ) ≤ 200),
    min_eq_left (by norm_num : (1 : ℚ) ≤ 2),
    max_eq_right (by norm_num : (0 : ℚ) ≤ 1)]
  unfold Dimmer.calculate_target_opacity Dimmer.calculate_target_opacity_with
    Dimmer.THRESHOLD_START Dimmer.THRESHOLD_MAX Dimmer.MAX_OPACITY
  norm_num

/-- C3 amended: the clamping is performed by the caller, monitor_loop, not
inside calculate_target_opacity.  The function is nevertheless extensionally
invariant under clamping of its brightness argument to the interval 0 to 255,
and the strength value the caller passes is always inside the unit
interval. -/
theorem C3_caller_clamps :
    (∀ b s : ℚ, Dimmer.calculate_target_opacity b s =
        Dimmer.calculate_target_opacity (max 0 (min 255 b)) s) ∧
    (∀ g : Option ℚ,
        0 ≤ Dimmer.monitor_strength g ∧ Dimmer.monitor_strength g ≤ 1) := by
  constructor
  · intro b s
    rcases le_or_lt b 0 with hb0 | hb0
    · rw [min_eq_right (by linarith : b ≤ (255 : ℚ)), max_eq_left hb0]
      unfold Dimmer.calculate_target_opacity Dimmer.calculate_target_opacity_with
        Dimmer.THRESHOLD_START Dimmer.THRESHOLD_MAX
      rw [if_neg (by linarith), if_neg (by linarith),
        if_neg (by norm_num), if_neg (by norm_num)]
    · rcases le_or_lt b 255 with hb255 | hb255
      · rw [min_eq_right hb255, max_eq_right hb0.le]
      · rw [min_eq_left hb255.le, max_eq_right (by norm_num : (0 : ℚ) ≤ 255)]
        unfold Dimmer.calculate_target_opacity Dimmer.calculate_target_opacity_with
          Dimmer.THRESHOLD_MAX
        rw [if_pos (by linarith), if_pos (by norm_num)]
  · intro g
    cases g with
    | none =>
        unfold Dimmer.monitor_strength
        norm_num
    | some v =>
        unfold Dimmer.monitor_strength
        exact ⟨le_max_left 0 _, max_le (by norm_num) (min_le_left _ _)⟩

/-- C4: the code performs no startup validation of the thresholds: the
prototype constructor unconditionally yields a running state, and with an
inverted configuration the target computation simply runs.  The division
branch is nevertheless unreachable whenever the low threshold is at least
the high threshold, because it requires low < brightness and at the same
time brightness at most high. -/
theorem C4_no_startup_validation :
    Single.AdaptiveDimmer.init.running = true ∧
    (∀ tS tM mO raw s : ℚ, tM ≤ tS →
      Dimmer.calculate_target_opacity_with tS tM mO raw s =
        if tM < raw then mO * s else 0) ∧
    Dimmer.calculate_target_opacity_with 130 40 200 85 1 = 200 := by
  refine ⟨rfl, ?_, by norm_num [Dimmer.calculate_target_opacity_with]⟩
  intro tS tM mO raw s hts
  unfold Dimmer.calculate_target_opacity_with
  split_ifs with h1 h2
  · rfl
  · linarith
  · rfl

/-- Witness for C4: instantiated at a configuration with low 130 at least
high 40 and brightness 30, where the computation returns the else branch. -/
theorem C4_no_startup_validation_witness :
    (40 : ℚ) ≤ 130 ∧
      Dimmer.calculate_target_opacity_with 130 40 200 30 1 =
        if (40 : ℚ) < 30 then 200 * 1 else 0 :=
  ⟨by norm_num, C4_no_startup_validation.2.1 130 40 200 30 1 (by norm_num)⟩

/-- Counterexample to C7: for the fixed strength minus 1 the target function is
not monotone in brightness: it is larger at brightness 50 than at 130. -/
theorem C7_monotone_counterexample :
    (50 : ℚ) ≤ 130 ∧
      ¬ Dimmer.calculate_target_opacity 50 (-1) ≤
          Dimmer.calculate_target_opacity 130 (-1) := by
  constructor
  · norm_num
  · unfold Dimmer.calculate_target_opacity Dimmer.calculate_target_opacity_with
      Dimmer.THRESHOLD_START Dimmer.THRESHOLD_MAX Dimmer.MAX_OPACITY
    norm_num

/-- C7 amended: for every fixed nonnegative strength,
calculate_target_opacity is monotonically non-decreasing in brightness. -/
theorem C7_monotone_in_brightness (s b1 b2 : ℚ) (hs : 0 ≤ s) (h : b1 ≤ b2) :
    Dimmer.calculate_target_opacity b1 s ≤ Dimmer.calculate_target_opacity b2 s := by
  unfold Dimmer.calculate_target_opacity Dimmer.calculate_target_opacity_with
    Dimmer.THRESHOLD_START Dimmer.THRESHOLD_MAX Dimmer.MAX_OPACITY
  rw [show (130 : ℚ) - 40 = 90 by norm_num]
  have h200s : (0 : ℚ) ≤ 200 * s := by linarith
  split_ifs with h1 h2 h3 h3 h4 h5
  · exact le_refl _
  · linarith
  · linarith
  · have hr : (b1 - 40) / 90 ≤ 1 := by
      rw [div_le_one (by norm_num : (0 : ℚ) < 90)]
      linarith
    nlinarith [mul_nonneg (sub_nonneg.mpr hr) h200s]
  · have hr : (b1 - 40) / 90 ≤ (b2 - 40) / 90 :=
      (div_le_div_iff_of_pos_right (by norm_num : (0 : ℚ) < 90)).mpr (by linarith)
    nlinarith [mul_nonneg (sub_nonneg.mpr hr) h200s]
  · linarith
  · linarith
  · have hr : (0 : ℚ) ≤ (b2 - 40) / 90 := div_nonneg (by linarith) (by norm_num)
    nlinarith [mul_nonneg hr h200s]
  · exact le_refl _

/-- Witness for C7 amended: strength 1 is nonnegative and 85 at most 130, so
the targets compare. -/
theorem C7_monotone_in_brightness_witness :
    (0 : ℚ) ≤ 1 ∧ (85 : ℚ) ≤ 130 ∧
      Dimmer.calculate_target_opacity 85 1 ≤ Dimmer.calculate_target_opacity 130 1 :=
  ⟨by norm_num, by norm_num,
    C7_monotone_in_brightness 1 85 130 (by norm_num) (by norm_num)⟩

/-- Counterexample to C2: the smoothing step does not move toward or snap to
the requested opacity itself when it is fractional.  With current 0 and
requested opacity nine tenths the gap is at most 1, so the claim demands the
new current be nine tenths, but the code truncates the request to 0 and
stores 0. -/
theorem C2_fractional_target_counterexample :
    |(9 / 10 : ℚ) - 0| ≤ 1 ∧
      Overlay.set_overlay_opacity_step 0 (9 / 10) false ≠ 9 / 10 := by
  constructor
  · rw [sub_zero, abs_of_nonneg (by norm_num : (0 : ℚ) ≤ 9 / 10)]
    norm_num
  · rw [Overlay.set_step_snap 0 (9 / 10)
      (by rw [Overlay.pyClampTrunc_nine_tenths]; norm_num),
      Overlay.pyClampTrunc_nine_tenths]
    norm_num

/-- C2 amended: for every current value and every integer target opacity in
the range 0 to 255 (the values actually produced after the internal
truncation and clamping), the smoothing step behaves as claimed: force
immediate snaps to the target exactly; a gap larger than 1 moves current by
0.15 times the gap; otherwise current snaps to the target exactly.  In
particular current 0 and target 100 give 15 after one tick and 100 under
force immediate. -/
theorem C2_step_integer_targets :
    (∀ (current : ℚ) (t : ℤ), 0 ≤ t → t ≤ 255 →
      Overlay.set_overlay_opacity_step current ((t : ℤ) : ℚ) true = ((t : ℤ) : ℚ) ∧
      (1 < |((t : ℤ) : ℚ) - current| →
        Overlay.set_overlay_opacity_step current ((t : ℤ) : ℚ) false =
          current + (((t : ℤ) : ℚ) - current) * (15 / 100)) ∧
      (|((t : ℤ) : ℚ) - current| ≤ 1 →
        Overlay.set_overlay_opacity_step current ((t : ℤ) : ℚ) false = ((t : ℤ) : ℚ))) ∧
    Overlay.set_overlay_opacity_step 0 100 false = 15 ∧
    Overlay.set_overlay_opacity_step 0 100 true = 100 := by
  refine ⟨?_, ?_, ?_⟩
  · intro c t h0 h1
    have hct := Overlay.pyClampTrunc_int t h0 h1
    refine ⟨?_, ?_, ?_⟩
    · rw [Overlay.set_step_force, hct]
    · intro h
      rw [Overlay.set_step_far c _ (by rw [hct]; exact h), hct]
    · intro h
      rw [Overlay.set_step_snap c _ (by rw [hct]; exact h), hct]
  · rw [Overlay.set_step_far 0 100 ?_]
    · rw [Overlay.pyClampTrunc_hundred]
      norm_num
    · rw [Overlay.pyClampTrunc_hundred, sub_zero,
        abs_of_nonneg (by norm_num : (0 : ℚ) ≤ 100)]
      norm_num
  · rw [Overlay.set_step_force, Overlay.pyClampTrunc_hundred]

/-- Witness for C2 amended: instantiated at current 0 and integer target 100. -/
theorem C2_step_integer_targets_witness :
    (0 : ℤ) ≤ 100 ∧ (100 : ℤ) ≤ 255 ∧
      Overlay.set_overlay_opacity_step 0 ((100 : ℤ) : ℚ) true = ((100 : ℤ) : ℚ) :=
  ⟨by norm_num, by norm_num,
    (C2_step_integer_targets.1 0 100 (by norm_num) (by norm_num)).1⟩

/-- C10: the smoothing step truncates the requested opacity to an integer and
clamps it to the range 0 to 255 before smoothing or snapping (truncating and
clamping commute here, so this equals clamping first), the value moved toward
and snapped to is that processed integer, and a requested opacity of nine
tenths is treated as 0. -/
theorem C10_request_truncated :
    (∀ (current opacity : ℚ) (f : Bool),
      Overlay.set_overlay_opacity_step current opacity f =
        Overlay.set_overlay_opacity_step current ((Overlay.pyInt opacity : ℤ) : ℚ) f) ∧
    (∀ opacity : ℚ,
      Overlay.pyClampTrunc opacity =
        ((Overlay.pyInt (max 0 (min 255 opacity)) : ℤ) : ℚ)) ∧
    (∀ current opacity : ℚ, |Overlay.pyClampTrunc opacity - current| ≤ 1 →
      Overlay.set_overlay_opacity_step current opacity false =
        Overlay.pyClampTrunc opacity) ∧
    (∀ current opacity : ℚ, 1 < |Overlay.pyClampTrunc opacity - current| →
      Overlay.set_overlay_opacity_step current opacity false =
        current + (Overlay.pyClampTrunc opacity - current) * (15 / 100)) ∧
    Overlay.pyClampTrunc (9 / 10) = 0 := by
  refine ⟨?_, Overlay.pyClampTrunc_comm, Overlay.set_step_snap,
    Overlay.set_step_far, Overlay.pyClampTrunc_nine_tenths⟩
  intro c q f
  unfold Overlay.set_overlay_opacity_step
  rw [Overlay.pyClampTrunc_pyInt]

/-- Witness for C10: with current 0 and requested opacity nine tenths the gap
to the processed value is at most 1 and the step snaps to that processed
value. -/
theorem C10_request_truncated_witness :
    |Overlay.pyClampTrunc (9 / 10) - 0| ≤ 1 ∧
      Overlay.set_overlay_opacity_step 0 (9 / 10) false =
        Overlay.pyClampTrunc (9 / 10) :=
  ⟨by rw [Overlay.pyClampTrunc_nine_tenths]; norm_num,
    C10_request_truncated.2.2.1 0 (9 / 10)
      (by rw [Overlay.pyClampTrunc_nine_tenths]; norm_num)⟩

/-- C5: per-surface opacity state stays in the range 0 to 255: creating an
overlay resets both the current and the target opacity of the monitor to 0;
the smoothing step sends any current value in range, any requested opacity
and any force flag to a value in range; and a whole monitoring tick
preserves the range invariant of every stored current and target opacity. -/
theorem C5_opacity_range_invariant :
    (∀ (st : Overlay.OverlayManager) (m hw : ℕ),
      (st.create_overlay m hw).current_opacity m = 0 ∧
      (st.create_overlay m hw).target_opacity m = 0) ∧
    (∀ (c t : ℚ) (f : Bool), 0 ≤ c → c ≤ 255 →
      0 ≤ Overlay.set_overlay_opacity_step c t f ∧
        Overlay.set_overlay_opacity_step c t f ≤ 255) ∧
    (∀ (g : Option ℚ) (cap : ℕ → Except String ℚ) (st : Overlay.OverlayManager)
        (ms : List ℕ),
      (∀ k, (0 ≤ st.current_opacity k ∧ st.current_opacity k ≤ 255) ∧
        (0 ≤ st.target_opacity k ∧ st.target_opacity k ≤ 255)) →
      ∀ k, (0 ≤ (Dimmer.monitor_tick g cap st ms).current_opacity k ∧
          (Dimmer.monitor_tick g cap st ms).current_opacity k ≤ 255) ∧
        (0 ≤ (Dimmer.monitor_tick g cap st ms).target_opacity k ∧
          (Dimmer.monitor_tick g cap st ms).target_opacity k ≤ 255)) := by
  refine ⟨?_, ?_, ?_⟩
  · intro st m hw
    exact ⟨if_pos rfl, if_pos rfl⟩
  · intro c t f h0 h1
    exact Overlay.set_step_mem c t f h0 h1
  · intro g cap st ms h
    exact Dimmer.monitor_tick_inv g cap ms st h

/-- Witness for C5: the smoothing step applied to current 0 and request 100
stays inside the range. -/
theorem C5_opacity_range_invariant_witness :
    (0 : ℚ) ≤ 0 ∧ (0 : ℚ) ≤ 255 ∧
      (0 ≤ Overlay.set_overlay_opacity_step 0 100 false ∧
        Overlay.set_overlay_opacity_step 0 100 false ≤ 255) :=
  ⟨le_refl 0, by norm_num,
    C5_opacity_range_invariant.2.1 0 100 false (le_refl 0) (by norm_num)⟩

/-- Counterexample to C6: with current 0 and the fractional target one half
(both inside the range 0 to 255, and with a gap of at most 1, so the claimed
snap branch applies), the iterated smoothing step never reaches the target:
it is still not equal to one half after the uniform bound of 36 ticks,
because every step snaps to the truncated value 0. -/
theorem C6_fractional_target_counterexample :
    |(1 / 2 : ℚ) - 0| ≤ 1 ∧
      (fun c => Overlay.set_overlay_opacity_step c (1 / 2) false)^[36] 0 ≠ 1 / 2 := by
  constructor
  · rw [sub_zero, abs_of_nonneg (by norm_num : (0 : ℚ) ≤ 1 / 2)]
    norm_num
  · have hfix : Overlay.set_overlay_opacity_step 0 (1 / 2) false = 0 := by
      rw [Overlay.set_step_snap 0 (1 / 2)
        (by rw [Overlay.pyClampTrunc_half]; norm_num), Overlay.pyClampTrunc_half]
    rw [Function.iterate_fixed hfix 36]
    norm_num

/-- C6 amended: for every current and target in the range 0 to 255, iterating
the smoothing step with that constant requested target reaches the value the
step actually snaps to, namely the truncated and clamped target, within the
uniform bound of 36 ticks; convergence is geometric with ratio 17 over 20 in
the gap; and exact equality is attained only through the snap branch, taken
when the gap is at most 1. -/
theorem C6_bounded_convergence (current target : ℚ) (h0 : 0 ≤ current)
    (h1 : current ≤ 255) (h2 : 0 ≤ target) (h3 : target ≤ 255) :
    (fun c => Overlay.set_overlay_opacity_step c target false)^[36] current =
      Overlay.pyClampTrunc target ∧
    (∀ n, |Overlay.pyClampTrunc target -
        (fun c => Overlay.set_overlay_opacity_step c target false)^[n] current| ≤
      (17 / 20) ^ n * |Overlay.pyClampTrunc target - current|) ∧
    (∀ c : ℚ,
      Overlay.set_overlay_opacity_step c target false = Overlay.pyClampTrunc target →
      c ≠ Overlay.pyClampTrunc target → |Overlay.pyClampTrunc target - c| ≤ 1) := by
  refine ⟨?_, fun n => Overlay.iterate_step_dist target current n, ?_⟩
  · have hA := Overlay.pyClampTrunc_nonneg target
    have hB := Overlay.pyClampTrunc_le target
    have hgap : |Overlay.pyClampTrunc target - current| ≤ 255 := by
      rw [abs_le]
      constructor <;> linarith
    have h35 := Overlay.iterate_step_dist target current 35
    have hsmall : |Overlay.pyClampTrunc target -
        (fun c => Overlay.set_overlay_opacity_step c target false)^[35] current| ≤
        (17 / 20) ^ 35 * 255 :=
      le_trans h35 (mul_le_mul_of_nonneg_left hgap (by positivity))
    have hlt : ((17 : ℚ) / 20) ^ 35 * 255 < 1 := by norm_num
    rw [show (36 : ℕ) = 35 + 1 from rfl, Function.iterate_succ_apply']
    exact Overlay.set_step_snap _ target (by linarith)
  · intro c hstep hne
    by_contra hgt
    push_neg at hgt
    rw [Overlay.set_step_far c target hgt] at hstep
    exact hne (by linarith)

/-- Witness for C6 amended: instantiated at current 0 and target 0, both in
range. -/
theorem C6_bounded_convergence_witness :
    ((0 : ℚ) ≤ 0 ∧ (0 : ℚ) ≤ 255) ∧
      (fun c => Overlay.set_overlay_opacity_step c 0 false)^[36] 0 =
        Overlay.pyClampTrunc 0 :=
  ⟨⟨le_refl 0, by norm_num⟩,
    (C6_bounded_convergence 0 0 (le_refl 0) (by norm_num) (le_refl 0)
      (by norm_num)).1⟩

/-- C8: within a single tick over a duplicate-free list of active monitors,
a monitor whose capture fails is skipped — its stored current and target
opacity are unchanged — while every other listed monitor with a valid window
handle and a successful capture still receives its new target and its
smoothed current opacity for this tick. -/
theorem C8_per_monitor_fault_isolation (g : Option ℚ)
    (cap : ℕ → Except String ℚ) (st : Overlay.OverlayManager) (ms : List ℕ)
    (m : ℕ) (e : String) (hnd : ms.Nodup) (hm : m ∈ ms)
    (he : cap m = Except.error e) :
    ((Dimmer.monitor_tick g cap st ms).current_opacity m = st.current_opacity m ∧
      (Dimmer.monitor_tick g cap st ms).target_opacity m = st.target_opacity m) ∧
    (∀ k, k ∈ ms → k ≠ m → ∀ (h : ℕ) (v : ℚ),
      st.hwnds k = some h → cap k = Except.ok v →
      (Dimmer.monitor_tick g cap st ms).target_opacity k =
        Dimmer.calculate_target_opacity (max 0 (min 255 v))
          (Dimmer.monitor_strength g) ∧
      (Dimmer.monitor_tick g cap st ms).current_opacity k =
        Overlay.set_overlay_opacity_step (st.current_opacity k)
          (Dimmer.calculate_target_opacity (max 0 (min 255 v))
            (Dimmer.monitor_strength g)) false) := by
  constructor
  · exact Dimmer.monitor_tick_error g cap ms st m e hnd hm he
  · intro k hk hkm h v hw hc
    exact Dimmer.monitor_tick_ok g cap ms st k h v hnd hk hw hc

/-- Witness for C8: two monitors, the first capture fails and the second
succeeds with brightness 85; after the tick the first monitor keeps opacity
0 and the second gets target 100 and one smoothing step. -/
theorem C8_per_monitor_fault_isolation_witness :
    ([1, 2] : List ℕ).Nodup ∧
      ((Dimmer.monitor_tick none
          (fun k => if k = 1 then Except.error "fail" else Except.ok 85)
          ⟨fun _ => some 7, fun _ => 0, fun _ => 0⟩ [1, 2]).current_opacity 1 = 0 ∧
        (Dimmer.monitor_tick none
          (fun k => if k = 1 then Except.error "fail" else Except.ok 85)
          ⟨fun _ => some 7, fun _ => 0, fun _ => 0⟩ [1, 2]).target_opacity 1 = 0) :=
  ⟨by decide,
    (C8_per_monitor_fault_isolation none
      (fun k => if k = 1 then Except.error "fail" else Except.ok 85)
      ⟨fun _ => some 7, fun _ => 0, fun _ => 0⟩ [1, 2] 1 "fail" (by decide)
      (by decide) rfl).1⟩

end AdaptiveScreenDimmer
